import Mathlib

/-!
Verification of the fleet-maintenance dashboard (`src/fleet.jsx`).

The file shallow-embeds the logic of the source: JavaScript numbers are
modelled as `JSNumber` (NaN, the infinities, and finite values carried
exactly as rationals), dynamically typed form-field values as `JSValue`,
and each source function becomes a Lean function of the same name.
Presentation markup is abstracted away: `getStatusBadge` returns the badge
classification instead of JSX, and the snapshot/insert callbacks become
explicit state-passing functions.
-/

namespace Fleet

/-- JavaScript number values as relevant here: NaN, the two infinities, and
finite values modelled exactly as rationals (double rounding is not modelled;
every literal in this program is exactly representable). -/
inductive JSNumber where
  | nan
  | inf
  | negInf
  | num (q : ℚ)
deriving DecidableEq

/-- Whitespace recognised by the JS `Number(string)` coercion around the
numeric literal (ASCII whitespace plus NBSP and the BOM). -/
def jsIsWhitespace (c : Char) : Bool :=
  c == ' ' || c == '\t' || c == '\n' || c == '\r' || c == '\x0b' || c == '\x0c' ||
    c.toNat == 0xa0 || c.toNat == 0xfeff

/-- Numeric value of a digit character (0-9, a-f, A-F); 0 for anything else. -/
def digitVal (c : Char) : ℕ :=
  if c.isDigit then c.toNat - '0'.toNat
  else if decide ('a' ≤ c) && decide (c ≤ 'f') then c.toNat - 'a'.toNat + 10
  else if decide ('A' ≤ c) && decide (c ≤ 'F') then c.toNat - 'A'.toNat + 10
  else 0

/-- Whether a character is a valid digit in base `b` (for `b ≤ 16`). -/
def isRadixDigit (b : ℕ) (c : Char) : Bool :=
  (c.isDigit || (decide ('a' ≤ c) && decide (c ≤ 'f')) ||
    (decide ('A' ≤ c) && decide (c ≤ 'F'))) && decide (digitVal c < b)

/-- Value of a digit string in base `b`. -/
def digitsVal (b : ℕ) (ds : List Char) : ℕ :=
  ds.foldl (fun acc c => acc * b + digitVal c) 0

/-- Parse the optional exponent part of a JS decimal literal; `none` means the
remaining characters make the whole literal invalid (NaN). -/
def parseExponent : List Char → Option ℤ
  | [] => some 0
  | c :: rest =>
    if c == 'e' || c == 'E' then
      match rest with
      | '+' :: ds => if !ds.isEmpty && ds.all Char.isDigit then some (digitsVal 10 ds) else none
      | '-' :: ds =>
        if !ds.isEmpty && ds.all Char.isDigit then some (-(digitsVal 10 ds : ℤ)) else none
      | ds => if !ds.isEmpty && ds.all Char.isDigit then some (digitsVal 10 ds) else none
    else none

/-- Parse an unsigned JS decimal literal (`digits [. digits] [exp]` or
`. digits [exp]`); `none` is NaN. -/
def parseUnsignedDec (cs : List Char) : Option ℚ :=
  let ip := cs.takeWhile Char.isDigit
  let r1 := cs.dropWhile Char.isDigit
  match r1 with
  | '.' :: r2 =>
    let fp := r2.takeWhile Char.isDigit
    let r3 := r2.dropWhile Char.isDigit
    if ip.isEmpty && fp.isEmpty then none
    else
      (parseExponent r3).map (fun e =>
        ((digitsVal 10 ip : ℚ) + (digitsVal 10 fp : ℚ) / (10 : ℚ) ^ fp.length) * (10 : ℚ) ^ e)
  | _ =>
    if ip.isEmpty then none
    else (parseExponent r1).map (fun e => (digitsVal 10 ip : ℚ) * (10 : ℚ) ^ e)

/-- Parse an unsigned radix literal body (after `0x`, `0o`, `0b`). -/
def parseRadix (b : ℕ) (ds : List Char) : JSNumber :=
  if !ds.isEmpty && ds.all (isRadixDigit b) then .num (digitsVal b ds) else .nan

/-- Strip JS whitespace from both ends. -/
def jsTrim (cs : List Char) : List Char :=
  ((cs.dropWhile jsIsWhitespace).reverse.dropWhile jsIsWhitespace).reverse

/-- Decimal case of string-to-number coercion. -/
def decCaseNum (cs : List Char) : JSNumber :=
  (parseUnsignedDec cs).elim JSNumber.nan JSNumber.num

/-- JS `Number(string)` coercion: trimmed empty string is `0`; otherwise a
signed decimal literal, `Infinity`, or an unsigned hex/octal/binary literal;
anything else is NaN. -/
def jsToNumber (s : String) : JSNumber :=
  match jsTrim s.toList with
  | [] => .num 0
  | cs =>
    if cs = "Infinity".toList then .inf
    else if cs = "+Infinity".toList then .inf
    else if cs = "-Infinity".toList then .negInf
    else
      match cs with
      | '+' :: rest => decCaseNum rest
      | '-' :: rest => (parseUnsignedDec rest).elim JSNumber.nan (fun q => JSNumber.num (-q))
      | '0' :: c :: rest =>
        if c == 'x' || c == 'X' then parseRadix 16 rest
        else if c == 'o' || c == 'O' then parseRadix 8 rest
        else if c == 'b' || c == 'B' then parseRadix 2 rest
        else decCaseNum ('0' :: c :: rest)
      | cs2 => decCaseNum cs2

/-- A dynamically typed JS value as stored in the form state: a string or a
number. -/
inductive JSValue where
  | str (s : String)
  | num (n : JSNumber)
deriving DecidableEq

/-- JS truthiness of a form-state value (`!x` in the source is the negation of
this): the empty string, `0` and NaN are falsy. -/
def jsTruthy : JSValue → Bool
  | .str s => decide (s ≠ "")
  | .num .nan => false
  | .num .inf => true
  | .num .negInf => true
  | .num (.num q) => decide (q ≠ 0)

/-- ToNumber on a form-state value. -/
def jsToNum : JSValue → JSNumber
  | .str s => jsToNumber s
  | .num n => n

/-- JS `>` on numbers: any comparison involving NaN is false. -/
def jsNumGT : JSNumber → JSNumber → Bool
  | .nan, _ => false
  | _, .nan => false
  | .inf, .inf => false
  | .inf, _ => true
  | _, .inf => false
  | .negInf, _ => false
  | .num _, .negInf => true
  | .num p, .num q => decide (q < p)

/-- A vehicle record as held in the reconciled view (`doc.id` merged with the
document fields). `model` and `year` may be missing in a stored document;
the numeric fields are modelled as rationals. -/
structure Vehicle where
  id : String
  make : String
  model : Option String
  year : Option Int
  vin : String
  mileage : ℚ
  nextServiceMileage : ℚ
  fuelType : String
  status : String
deriving DecidableEq

/-- The three derived presentation states. -/
inductive DerivedStatus where
  | inMaintenance
  | serviceDue
  | active
deriving DecidableEq

/-- Classification computed by `getStatusBadge` (src/fleet.jsx lines 13-21);
the JSX badge markup is abstracted to the branch taken. -/
def getStatusBadge (v : Vehicle) : DerivedStatus :=
  if v.status = "In Maintenance" then .inMaintenance
  else if v.nextServiceMileage ≤ v.mileage then .serviceDue
  else .active

/-- C1: the derived status is exactly one of three values determined only by
(status, mileage, nextServiceMileage): it is In Maintenance whenever the
stored status field equals "In Maintenance" regardless of the mileage fields;
otherwise Service Due whenever mileage ≥ nextServiceMileage; otherwise
Active. -/
theorem getStatusBadge_spec (v : Vehicle) :
    (v.status = "In Maintenance" → getStatusBadge v = DerivedStatus.inMaintenance)
    ∧ (v.status ≠ "In Maintenance" → v.nextServiceMileage ≤ v.mileage →
        getStatusBadge v = DerivedStatus.serviceDue)
    ∧ (v.status ≠ "In Maintenance" → v.mileage < v.nextServiceMileage →
        getStatusBadge v = DerivedStatus.active)
    ∧ (∀ w : Vehicle, v.status = w.status → v.mileage = w.mileage →
        v.nextServiceMileage = w.nextServiceMileage → getStatusBadge v = getStatusBadge w) := by
  refine ⟨fun h => ?_, fun h1 h2 => ?_, fun h1 h2 => ?_, fun w h1 h2 h3 => ?_⟩
  · simp [getStatusBadge, h]
  · simp [getStatusBadge, h1, h2]
  · simp [getStatusBadge, h1, not_le.mpr h2]
  · simp only [getStatusBadge, h1, h2, h3]

/-- Scenario B record: In Maintenance with a huge mileage gap. -/
def vehicleB : Vehicle :=
  { id := "b1", make := "Freightliner", model := some "Cascadia 126", year := some 2019,
    vin := "3FLXA9EMXKJ123456", mileage := 100, nextServiceMileage := 1000000,
    fuelType := "Diesel", status := "In Maintenance" }

/-- Witness for C1 at the Scenario B record: derived status is In Maintenance
despite mileage far below the service threshold. -/
theorem getStatusBadge_spec_witness :
    getStatusBadge vehicleB = DerivedStatus.inMaintenance :=
  (getStatusBadge_spec vehicleB).1 rfl

/-- Primary sort key of the snapshot comparator (src/fleet.jsx lines 97-98):
bucket 0 for In Maintenance or Service Due, bucket 1 otherwise. -/
def urgencyBucket (v : Vehicle) : ℕ :=
  if v.status = "In Maintenance" ∨ v.nextServiceMileage ≤ v.mileage then 0 else 1

/-- Secondary sort key: the model field, with a missing (or empty) model
compared as the empty string (`a.model || ''` in the source). -/
def modelKey (v : Vehicle) : String :=
  v.model.getD ""

/-- The comparator of src/fleet.jsx lines 96-101 as a boolean ≤ relation:
`vehicleLE a b` iff the JS comparator returns a non-positive number on
`(a, b)`. `localeCompare` is modelled as code-point lexicographic string
comparison. -/
def vehicleLE (a b : Vehicle) : Bool :=
  decide (urgencyBucket a < urgencyBucket b) ||
    (decide (urgencyBucket a = urgencyBucket b) && decide (modelKey a ≤ modelKey b))

/-- The reconciler's sort (`fetchedVehicles.sort(...)`). JS `Array.sort` is
stable, so it is modelled by the stable `List.mergeSort` on the comparator's
≤ relation. -/
def sortVehicles (l : List Vehicle) : List Vehicle :=
  l.mergeSort vehicleLE

theorem vehicleLE_trans (a b c : Vehicle) :
    vehicleLE a b → vehicleLE b c → vehicleLE a c := by
  simp only [vehicleLE, Bool.or_eq_true, Bool.and_eq_true, decide_eq_true_eq]
  rintro (h1 | ⟨h1, h1m⟩) (h2 | ⟨h2, h2m⟩)
  · exact Or.inl (h1.trans h2)
  · exact Or.inl (h2 ▸ h1)
  · exact Or.inl (h1 ▸ h2)
  · exact Or.inr ⟨h1.trans h2, h1m.trans h2m⟩

theorem vehicleLE_total (a b : Vehicle) :
    vehicleLE a b || vehicleLE b a := by
  simp only [vehicleLE, Bool.or_eq_true, Bool.and_eq_true, decide_eq_true_eq]
  rcases Nat.lt_trichotomy (urgencyBucket a) (urgencyBucket b) with h | h | h
  · exact Or.inl (Or.inl h)
  · rcases le_total (modelKey a) (modelKey b) with hm | hm
    · exact Or.inl (Or.inr ⟨h, hm⟩)
    · exact Or.inr (Or.inr ⟨h.symm, hm⟩)
  · exact Or.inr (Or.inl h)

theorem urgencyBucket_eq_one_iff (v : Vehicle) :
    urgencyBucket v = 1 ↔ getStatusBadge v = DerivedStatus.active := by
  unfold urgencyBucket getStatusBadge
  by_cases h1 : v.status = "In Maintenance"
  · simp [h1]
  · by_cases h2 : v.nextServiceMileage ≤ v.mileage
    · simp [h1, h2]
    · simp [h1, h2]

/-- C2: the reconciled output places every In Maintenance / Service Due record
before every Active record; within each bucket records are non-decreasingly
ordered by the model field (missing model as empty string); records that
compare equal keep their input order (stability); and the output is a
permutation of the input. -/
theorem sortVehicles_spec (l : List Vehicle) :
    ((sortVehicles l).Pairwise (fun a b =>
        getStatusBadge a = DerivedStatus.active → getStatusBadge b = DerivedStatus.active))
    ∧ ((sortVehicles l).Pairwise (fun a b =>
        urgencyBucket a = urgencyBucket b → modelKey a ≤ modelKey b))
    ∧ (∀ a b : Vehicle, vehicleLE a b → vehicleLE b a →
        [a, b].Sublist l → [a, b].Sublist (sortVehicles l))
    ∧ (sortVehicles l).Perm l := by
  have hpair : (sortVehicles l).Pairwise (fun a b => vehicleLE a b = true) :=
    List.sorted_mergeSort vehicleLE_trans vehicleLE_total l
  refine ⟨?_, ?_, ?_, List.mergeSort_perm l vehicleLE⟩
  · refine hpair.imp ?_
    intro a b hab ha
    have h1 : urgencyBucket a = 1 := (urgencyBucket_eq_one_iff a).mpr ha
    have h2 : urgencyBucket a ≤ urgencyBucket b := by
      simp only [vehicleLE, Bool.or_eq_true, Bool.and_eq_true, decide_eq_true_eq] at hab
      rcases hab with h | ⟨h, _⟩
      · exact Nat.le_of_lt h
      · exact Nat.le_of_eq h
    have h3 : urgencyBucket b = 1 := by
      have hb : urgencyBucket b ≤ 1 := by
        unfold urgencyBucket
        split <;> omega
      omega
    exact (urgencyBucket_eq_one_iff b).mp h3
  · refine hpair.imp ?_
    intro a b hab heq
    simp only [vehicleLE, Bool.or_eq_true, Bool.and_eq_true, decide_eq_true_eq] at hab
    rcases hab with h | ⟨_, hm⟩
    · omega
    · exact hm
  · intro a b hab _ hsub
    exact List.pair_sublist_mergeSort vehicleLE_trans vehicleLE_total hab hsub

/-- Two vehicles with equal sort keys (same bucket, same model) in the order
they would arrive in a snapshot. -/
def vehicleT1 : Vehicle :=
  { id := "t1", make := "Toyota", model := some "Tacoma", year := some 2020,
    vin := "3TMYF5AN6LK123456", mileage := 45000, nextServiceMileage := 55000,
    fuelType := "Gasoline", status := "Active" }

def vehicleT2 : Vehicle :=
  { id := "t2", make := "Toyota", model := some "Tacoma", year := some 2021,
    vin := "3TMYF5AN6LK654321", mileage := 1000, nextServiceMileage := 9000,
    fuelType := "Gasoline", status := "Active" }

/-- Witness for C2: two equal-comparing records keep their input order through
the reconciler's sort. -/
theorem sortVehicles_spec_witness :
    [vehicleT1, vehicleT2].Sublist (sortVehicles [vehicleT1, vehicleT2]) :=
  (sortVehicles_spec [vehicleT1, vehicleT2]).2.2.1 vehicleT1 vehicleT2
    (by norm_num [vehicleLE, urgencyBucket, modelKey, vehicleT1, vehicleT2])
    (by norm_num [vehicleLE, urgencyBucket, modelKey, vehicleT1, vehicleT2])
    (List.Sublist.refl _)

/-- The non-id fields of a stored vehicle document (what `doc.data()` yields
when decoding succeeds, and what an insert writes). -/
structure VehicleData where
  make : String
  model : Option String
  year : Option Int
  vin : String
  mileage : ℚ
  nextServiceMileage : ℚ
  fuelType : String
  status : String
deriving DecidableEq

/-- Merging `doc.id` with the document fields (`{ id: doc.id, ...doc.data() }`). -/
def mkVehicle (id : String) (d : VehicleData) : Vehicle :=
  { id := id, make := d.make, model := d.model, year := d.year, vin := d.vin,
    mileage := d.mileage, nextServiceMileage := d.nextServiceMileage,
    fuelType := d.fuelType, status := d.status }

/-- Decoding failure of a delivered document. -/
inductive DecodeError where
  | malformedDoc
deriving DecidableEq

/-- A delivered snapshot document: reading its data may raise. -/
structure RawDoc where
  id : String
  data : Except DecodeError VehicleData

/-- Decode one document of a snapshot. -/
def decodeDoc (r : RawDoc) : Except DecodeError Vehicle :=
  r.data.map (mkVehicle r.id)

/-- Decode a whole snapshot (`snapshot.docs.map(...)`): the first raising
document aborts the mapping, as a thrown exception does. -/
def decodeSnapshot (docs : List RawDoc) : Except DecodeError (List Vehicle) :=
  docs.mapM decodeDoc

/-- The state the snapshot listener touches. -/
structure EngineState where
  vehicles : List Vehicle
  isLoading : Bool
  error : Option String

/-- The `onSnapshot` success callback (src/fleet.jsx lines 89-109): decode and
sort the snapshot and replace the view; if decoding raises, the catch branch
surfaces a collection-level error and leaves the held view untouched. -/
def onSnapshotUpdate (docs : List RawDoc) (st : EngineState) : EngineState :=
  match decodeSnapshot docs with
  | .ok vs => { st with vehicles := sortVehicles vs, isLoading := false }
  | .error _ => { st with error := some "Could not load fleet data.", isLoading := false }

/-- C6: a snapshot delivery whose decoding raises surfaces a collection-level
error and leaves the previously held vehicle view exactly as it was. -/
theorem onSnapshotUpdate_decode_failure (docs : List RawDoc) (st : EngineState)
    (e : DecodeError) (h : decodeSnapshot docs = .error e) :
    (onSnapshotUpdate docs st).vehicles = st.vehicles
    ∧ (onSnapshotUpdate docs st).error = some "Could not load fleet data." := by
  unfold onSnapshotUpdate
  rw [h]
  exact ⟨rfl, rfl⟩

/-- A snapshot whose only document is malformed. -/
def badDocs : List RawDoc :=
  [{ id := "d1", data := Except.error DecodeError.malformedDoc }]

/-- A state already holding a good view. -/
def goodState : EngineState :=
  { vehicles := [vehicleT1], isLoading := false, error := none }

/-- Witness for C6: the malformed snapshot leaves the last-known-good view in
place and surfaces the collection-level error. -/
theorem onSnapshotUpdate_decode_failure_witness :
    (onSnapshotUpdate badDocs goodState).vehicles = [vehicleT1]
    ∧ (onSnapshotUpdate badDocs goodState).error = some "Could not load fleet data." :=
  onSnapshotUpdate_decode_failure badDocs goodState DecodeError.malformedDoc rfl

/-- Outcome of the bulk-seeding loop: the drafts durably inserted, the number
of insert calls issued, and the surfaced error, if any. -/
structure SeedResult where
  inserted : List VehicleData
  attempted : ℕ
  error : Option String
deriving DecidableEq

/-- The `for ... await addDoc` loop of `handleLoadSampleData` (src/fleet.jsx
lines 194-201) with the surrounding try/catch: `ins i` tells whether the
i-th insert call succeeds; the first failure aborts the remaining batch,
already-inserted drafts stay inserted, and the catch branch records the
collection-level error. -/
def seedLoop (ins : ℕ → Bool) : ℕ → List VehicleData → SeedResult
  | _, [] => { inserted := [], attempted := 0, error := none }
  | i, d :: rest =>
    if ins i then
      let r := seedLoop ins (i + 1) rest
      { inserted := d :: r.inserted, attempted := r.attempted + 1, error := r.error }
    else
      { inserted := [], attempted := 1,
        error := some "Failed to load sample data. Check console." }

/-- The sample drafts seeded by `handleLoadSampleData` (src/fleet.jsx
lines 174-187). -/
def sampleVehicles : List VehicleData :=
  [{ make := "Ford", model := some "Transit 350", year := some 2021,
     vin := "1FTSE1EL1MJD12345", mileage := 85000, nextServiceMileage := 80000,
     fuelType := "Diesel", status := "Active" },
   { make := "Tesla", model := some "Model 3", year := some 2023,
     vin := "5YJSA1E20NF1234567", mileage := 12000, nextServiceMileage := 25000,
     fuelType := "Electric", status := "Active" },
   { make := "Freightliner", model := some "Cascadia 126", year := some 2019,
     vin := "3FLXA9EMXKJ123456", mileage := 150000, nextServiceMileage := 160000,
     fuelType := "Diesel", status := "In Maintenance" },
   { make := "Toyota", model := some "Tacoma", year := some 2020,
     vin := "3TMYF5AN6LK123456", mileage := 45000, nextServiceMileage := 55000,
     fuelType := "Gasoline", status := "Active" }]

/-- The whole of `handleLoadSampleData`, generalized over the batch (the
source fixes it to `sampleVehicles`): returns the store contents after the
run and the message set by `setError` (on full success the source stores a
success message in the same slot). -/
def handleLoadSampleData (ins : ℕ → Bool) (drafts store : List VehicleData) :
    List VehicleData × Option String :=
  let r := seedLoop ins 0 drafts
  (store ++ r.inserted, r.error.elim (some "Sample data loaded successfully!") some)

theorem seedLoop_fail (ins : ℕ → Bool) :
    ∀ (drafts : List VehicleData) (i k : ℕ), k < drafts.length →
    (∀ j, j < k → ins (i + j) = true) → ins (i + k) = false →
    seedLoop ins i drafts =
      { inserted := drafts.take k, attempted := k + 1,
        error := some "Failed to load sample data. Check console." } := by
  intro drafts
  induction drafts with
  | nil => intro i k hk _ _; simp at hk
  | cons d rest ih =>
    intro i k hk hpre hfail
    cases k with
    | zero =>
      have h0 : ins i = false := by simpa using hfail
      simp [seedLoop, h0]
    | succ n =>
      have h0 : ins i = true := by simpa using hpre 0 (Nat.succ_pos n)
      have hrest := ih (i + 1) n (by simpa using hk)
        (fun j hj => by
          rw [show i + 1 + j = i + (j + 1) by omega]
          exact hpre (j + 1) (by omega))
        (by
          rw [show i + 1 + n = i + (n + 1) by omega]
          exact hfail)
      simp [seedLoop, h0, hrest]

/-- C5: bulk seeding inserts the batch sequentially; if the insert at 0-based
index k fails after k successes, exactly the first k drafts remain persisted
(no rollback), exactly k + 1 insert calls were issued (later drafts are never
attempted), and the single collection-level error message is surfaced. -/
theorem handleLoadSampleData_abort (ins : ℕ → Bool) (drafts store : List VehicleData)
    (k : ℕ) (hk : k < drafts.length) (hpre : ∀ j, j < k → ins j = true)
    (hfail : ins k = false) :
    (handleLoadSampleData ins drafts store).1 = store ++ drafts.take k
    ∧ (seedLoop ins 0 drafts).attempted = k + 1
    ∧ (handleLoadSampleData ins drafts store).2
        = some "Failed to load sample data. Check console." := by
  have h := seedLoop_fail ins drafts 0 k hk (fun j hj => by simpa using hpre j hj)
    (by simpa using hfail)
  refine ⟨?_, ?_, ?_⟩ <;> simp [handleLoadSampleData, h, Option.elim]

/-- Insert oracle for Scenario F: only the third insert (index 2) fails. -/
def insThirdFails : ℕ → Bool := fun j => decide (j ≠ 2)

/-- Witness for C5 at Scenario F: seeding the four sample drafts where the
third insert fails persists exactly the first two, issues exactly three
insert calls, and surfaces the one collection-level error. -/
theorem handleLoadSampleData_abort_witness :
    (handleLoadSampleData insThirdFails sampleVehicles []).1 = sampleVehicles.take 2
    ∧ (seedLoop insThirdFails 0 sampleVehicles).attempted = 3
    ∧ (handleLoadSampleData insThirdFails sampleVehicles []).2
        = some "Failed to load sample data. Check console." :=
  handleLoadSampleData_abort insThirdFails sampleVehicles [] 2
    (by decide) (by decide) (by decide)

/-- The `newVehicle` form state (src/fleet.jsx lines 31-40): its fields are
dynamically typed JS values. -/
structure Draft where
  make : JSValue
  model : JSValue
  year : JSValue
  vin : JSValue
  mileage : JSValue
  nextServiceMileage : JSValue
  fuelType : JSValue
  status : JSValue
deriving DecidableEq

/-- Initial and reset form state (src/fleet.jsx lines 31-40 and 156-158). -/
def initialDraft : Draft :=
  { make := .str "", model := .str "", year := .str "", vin := .str "",
    mileage := .num (.num 0), nextServiceMileage := .num (.num 5000),
    fuelType := .str "Diesel", status := .str "Active" }

/-- The change handler (src/fleet.jsx lines 120-126): stores
`type === 'number' ? Number(value) : value` under the field named by the
input. A name outside the eight state fields would create a property the
program never reads, modelled as a no-op; no form input is named "status",
so that branch is unreachable from the form. -/
def handleInputChange (name value ty : String) (d : Draft) : Draft :=
  let v : JSValue := if ty = "number" then .num (jsToNumber value) else .str value
  if name = "make" then { d with make := v }
  else if name = "model" then { d with model := v }
  else if name = "year" then { d with year := v }
  else if name = "vin" then { d with vin := v }
  else if name = "mileage" then { d with mileage := v }
  else if name = "nextServiceMileage" then { d with nextServiceMileage := v }
  else if name = "fuelType" then { d with fuelType := v }
  else if name = "status" then { d with status := v }
  else d

/-- Names of the form inputs wired to the change handler (src/fleet.jsx
lines 408-509). -/
def formInputNames : List String :=
  ["make", "model", "year", "fuelType", "vin", "mileage", "nextServiceMileage"]

/-- The two local validation failures. -/
inductive ValidationError where
  | missingRequiredField
  | mileageInversion
deriving DecidableEq

/-- The validation of `handleAddVehicle` (src/fleet.jsx lines 136-143), in
source order: required-field truthiness first, then the mileage comparison.
The source compares with JS `>`, which applies ToNumber here; the
string-to-string lexicographic case of JS `>` cannot arise because these two
fields always hold numbers. -/
def validateDraft (d : Draft) : Option ValidationError :=
  if !jsTruthy d.make || !jsTruthy d.model || !jsTruthy d.vin then
    some .missingRequiredField
  else if jsNumGT (jsToNum d.mileage) (jsToNum d.nextServiceMileage) then
    some .mileageInversion
  else none

/-- The state `handleAddVehicle` touches. -/
structure AppState where
  vehicles : List Vehicle
  error : Option String
  isModalOpen : Bool
  newVehicle : Draft

/-- `handleAddVehicle` (src/fleet.jsx lines 128-165): validate the current
draft; on a validation failure set the inline error and return — no insert is
issued. On success issue the insert (`insertOk` tells whether `addDoc`
succeeds); insert success resets the form and closes the modal, insert
failure sets a collection-level error. The second component is the insert
request issued, if any. -/
def handleAddVehicle (insertOk : Bool) (st : AppState) : AppState × Option Draft :=
  match validateDraft st.newVehicle with
  | some .missingRequiredField =>
    ({ st with error := some "Make, Model, and VIN are required." }, none)
  | some .mileageInversion =>
    ({ st with error := some "Current Mileage cannot be higher than Next Service Mileage." },
      none)
  | none =>
    if insertOk then
      ({ st with newVehicle := initialDraft, isModalOpen := false, error := none },
        some st.newVehicle)
    else
      ({ st with error := some "Failed to add vehicle to the fleet. Check console." },
        some st.newVehicle)

/-- C4: the validator checks the rules in source order — required fields
first (failing with MissingRequiredField even when the mileage rule is also
violated), then the mileage comparison (failing with MileageInversion) — and
on any validation failure no insert is issued and the vehicles view is
unchanged. -/
theorem handleAddVehicle_validation (st : AppState) (insertOk : Bool) :
    ((¬jsTruthy st.newVehicle.make ∨ ¬jsTruthy st.newVehicle.model ∨
        ¬jsTruthy st.newVehicle.vin) →
      validateDraft st.newVehicle = some ValidationError.missingRequiredField)
    ∧ (jsTruthy st.newVehicle.make → jsTruthy st.newVehicle.model →
        jsTruthy st.newVehicle.vin →
        jsNumGT (jsToNum st.newVehicle.mileage) (jsToNum st.newVehicle.nextServiceMileage) →
        validateDraft st.newVehicle = some ValidationError.mileageInversion)
    ∧ (∀ e, validateDraft st.newVehicle = some e →
        (handleAddVehicle insertOk st).2 = none
        ∧ (handleAddVehicle insertOk st).1.vehicles = st.vehicles) := by
  refine ⟨fun h => ?_, fun h1 h2 h3 h4 => ?_, fun e he => ?_⟩
  · have hc : (!jsTruthy st.newVehicle.make || !jsTruthy st.newVehicle.model ||
        !jsTruthy st.newVehicle.vin) = true := by
      rcases h with h | h | h <;> simp [Bool.not_eq_true] at h <;> simp [h]
    simp [validateDraft, hc]
  · have hc : (!jsTruthy st.newVehicle.make || !jsTruthy st.newVehicle.model ||
        !jsTruthy st.newVehicle.vin) = false := by
      simp [h1, h2, h3]
    simp [validateDraft, hc, h4]
  · cases e <;> (unfold handleAddVehicle; rw [he]; exact ⟨rfl, rfl⟩)

/-- Scenario D draft, additionally violating the mileage rule: empty make,
mileage above next service. -/
def draftD : Draft :=
  { make := .str "", model := .str "X", year := .str "", vin := .str "123",
    mileage := .num (.num 100), nextServiceMileage := .num (.num 50),
    fuelType := .str "Diesel", status := .str "Active" }

/-- An app state about to submit the Scenario D draft. -/
def stateD : AppState :=
  { vehicles := [vehicleT1], error := none, isModalOpen := true, newVehicle := draftD }

/-- Witness for C4 at Scenario D: a draft violating both rules fails with
MissingRequiredField, no insert is issued, and the view is unchanged. -/
theorem handleAddVehicle_validation_witness :
    validateDraft draftD = some ValidationError.missingRequiredField
    ∧ (handleAddVehicle true stateD).2 = none
    ∧ (handleAddVehicle true stateD).1.vehicles = [vehicleT1] := by
  have h := handleAddVehicle_validation stateD true
  have h1 := h.1 (Or.inl (by decide))
  exact ⟨h1, (h.2.2 ValidationError.missingRequiredField h1).1,
    (h.2.2 ValidationError.missingRequiredField h1).2⟩

/-- Counterexample for C3: in the change handler the non-numeric text "abc"
is stored as NaN, not as the number 0 (JS `Number("abc")` is NaN), and the
text "2.5" is stored as the non-integer 5/2. -/
theorem handleInputChange_not_zero_on_nonnumeric :
    (handleInputChange "mileage" "abc" "number" initialDraft).mileage
        = JSValue.num JSNumber.nan
    ∧ JSValue.num JSNumber.nan ≠ JSValue.num (JSNumber.num 0)
    ∧ jsToNumber "2.5" = JSNumber.num (5 / 2)
    ∧ (5 / 2 : ℚ) ∉ Set.range (Int.cast : ℤ → ℚ) := by
  refine ⟨by decide, by decide, ?_, ?_⟩
  · have h : jsToNumber "2.5"
        = JSNumber.num (((2 : ℚ) + (5 : ℚ) / (10 : ℚ) ^ 1) * (10 : ℚ) ^ (0 : ℤ)) := rfl
    rw [h]
    norm_num
  · rintro ⟨n, hn⟩
    have h2 : ((n : ℚ)).den = 1 := Rat.den_intCast n
    rw [hn] at h2
    norm_num at h2

/-- C3 as amended: for every numeric-typed form field the change handler
stores the JS `Number(value)` coercion of the submitted text (so the parse
happens at input time, before the validator later reads the stored field);
the empty string coerces to 0, but non-numeric text is stored as NaN rather
than 0, and text fields are stored verbatim. -/
theorem handleInputChange_numberCoercion (d : Draft) (value ty : String) :
    (handleInputChange "mileage" value "number" d).mileage = JSValue.num (jsToNumber value)
    ∧ (handleInputChange "nextServiceMileage" value "number" d).nextServiceMileage
        = JSValue.num (jsToNumber value)
    ∧ (handleInputChange "year" value "number" d).year = JSValue.num (jsToNumber value)
    ∧ jsToNumber "" = JSNumber.num 0
    ∧ (jsToNumber value = JSNumber.nan →
        (handleInputChange "mileage" value "number" d).mileage = JSValue.num JSNumber.nan)
    ∧ (ty ≠ "number" → (handleInputChange "make" value ty d).make = JSValue.str value) := by
  refine ⟨by simp [handleInputChange], by simp [handleInputChange],
    by simp [handleInputChange], by decide, fun h => by simp [handleInputChange, h],
    fun h => by simp [handleInputChange, h]⟩

/-- Witness for C3 as amended: the empty submitted text is stored as the
number 0, and text input is stored verbatim. -/
theorem handleInputChange_numberCoercion_witness :
    (handleInputChange "mileage" "" "number" initialDraft).mileage
        = JSValue.num (JSNumber.num 0)
    ∧ (handleInputChange "make" "Ford" "text" initialDraft).make = JSValue.str "Ford" := by
  have h := handleInputChange_numberCoercion initialDraft "" "text"
  have hb := (handleInputChange_numberCoercion initialDraft "Ford" "text").2.2.2.2.2
    (by decide)
  refine ⟨?_, hb⟩
  rw [h.1, h.2.2.2.1]

/-- C10: a draft whose mileage equals its next-service mileage (required
fields present) passes validation — the validator rejects only strictly
greater mileage — and the resulting record (status "Active", as every
form-produced draft has: no form input is named "status") displays as
Service Due. -/
theorem validateDraft_boundary (d : Draft) (q : ℚ)
    (hm : d.mileage = JSValue.num (JSNumber.num q))
    (hn : d.nextServiceMileage = JSValue.num (JSNumber.num q))
    (h1 : jsTruthy d.make) (h2 : jsTruthy d.model) (h3 : jsTruthy d.vin)
    (v : Vehicle) (hvs : v.status = "Active") (hvm : v.mileage = q)
    (hvn : v.nextServiceMileage = q) :
    validateDraft d = none
    ∧ getStatusBadge v = DerivedStatus.serviceDue
    ∧ (∀ (d2 : Draft) (q1 q2 : ℚ), jsTruthy d2.make → jsTruthy d2.model → jsTruthy d2.vin →
        d2.mileage = JSValue.num (JSNumber.num q1) →
        d2.nextServiceMileage = JSValue.num (JSNumber.num q2) →
        (validateDraft d2 = some ValidationError.mileageInversion ↔ q2 < q1))
    ∧ initialDraft.status = JSValue.str "Active"
    ∧ (∀ (d3 : Draft) (name value ty : String), name ∈ formInputNames →
        (handleInputChange name value ty d3).status = d3.status) := by
  have key : ∀ (d2 : Draft) (q1 q2 : ℚ), jsTruthy d2.make → jsTruthy d2.model →
      jsTruthy d2.vin → d2.mileage = JSValue.num (JSNumber.num q1) →
      d2.nextServiceMileage = JSValue.num (JSNumber.num q2) →
      (validateDraft d2 = some ValidationError.mileageInversion ↔ q2 < q1) := by
    intro d2 q1 q2 k1 k2 k3 km kn
    have hc : (!jsTruthy d2.make || !jsTruthy d2.model || !jsTruthy d2.vin) = false := by
      simp [k1, k2, k3]
    by_cases hq : q2 < q1
    · simp [validateDraft, hc, km, kn, jsToNum, jsNumGT, hq]
    · simp [validateDraft, hc, km, kn, jsToNum, jsNumGT, hq]
  refine ⟨?_, ?_, key, rfl, ?_⟩
  · have hiff := key d q q h1 h2 h3 hm hn
    have hc : (!jsTruthy d.make || !jsTruthy d.model || !jsTruthy d.vin) = false := by
      simp [h1, h2, h3]
    simp [validateDraft, hc, hm, hn, jsToNum, jsNumGT]
  · have hs : v.status ≠ "In Maintenance" := by rw [hvs]; decide
    have hle : v.nextServiceMileage ≤ v.mileage := by rw [hvm, hvn]
    simp [getStatusBadge, hs, hle]
  · intro d3 name value ty hname
    fin_cases hname <;> simp [handleInputChange]

/-- A boundary draft: mileage equal to next-service mileage. -/
def draftEq : Draft :=
  { make := .str "A", model := .str "B", year := .str "", vin := .str "C",
    mileage := .num (.num 100), nextServiceMileage := .num (.num 100),
    fuelType := .str "Diesel", status := .str "Active" }

/-- The record resulting from the boundary draft. -/
def vehicleEq : Vehicle :=
  { id := "e1", make := "A", model := some "B", year := none, vin := "C",
    mileage := 100, nextServiceMileage := 100, fuelType := "Diesel", status := "Active" }

/-- Witness for C10: the boundary draft is accepted and its record displays
as Service Due. -/
theorem validateDraft_boundary_witness :
    validateDraft draftEq = none ∧ getStatusBadge vehicleEq = DerivedStatus.serviceDue := by
  have h := validateDraft_boundary draftEq 100 rfl rfl (by decide) (by decide) (by decide)
    vehicleEq rfl rfl rfl
  exact ⟨h.1, h.2.1⟩

/-- Total fleet size (src/fleet.jsx line 214). -/
def totalVehicles (l : List Vehicle) : ℕ :=
  l.length

/-- Predicate of the `activeVehicles` filter (src/fleet.jsx line 215). -/
def isActiveCount (v : Vehicle) : Bool :=
  decide (v.status = "Active") && decide (v.mileage < v.nextServiceMileage)

/-- Predicate of the `serviceDue` filter (src/fleet.jsx line 216). -/
def isServiceDueCount (v : Vehicle) : Bool :=
  decide (v.nextServiceMileage ≤ v.mileage) || decide (v.status = "In Maintenance")

def activeVehicles (l : List Vehicle) : ℕ :=
  (l.filter isActiveCount).length

def serviceDue (l : List Vehicle) : ℕ :=
  (l.filter isServiceDueCount).length

/-- Sum of mileages (src/fleet.jsx line 218); `v.mileage || 0` is the
identity on rational-valued mileage since `0 || 0` is `0`. -/
def totalMileage (l : List Vehicle) : ℚ :=
  l.foldl (fun sum v => sum + v.mileage) 0

/-- The displayed average (src/fleet.jsx line 219). `toFixed(0)` rounds to
the nearest integer, picking the larger one on ties — exactly Mathlib
`round`; the source renders it as a string, the numeric value is modelled. -/
def avgMileage (l : List Vehicle) : ℤ :=
  if 0 < totalVehicles l then round (totalMileage l / (totalVehicles l : ℚ)) else 0

/-- C7: for a non-empty list the average mileage is the total divided by the
count rounded to the nearest integer (within 1/2 of the exact quotient), and
for the empty list it is 0; both branches are total, so no division error
occurs. -/
theorem avgMileage_spec (l : List Vehicle) :
    (l ≠ [] → avgMileage l = round (totalMileage l / (totalVehicles l : ℚ))
      ∧ |(avgMileage l : ℚ) - totalMileage l / (totalVehicles l : ℚ)| ≤ 1 / 2)
    ∧ (l = [] → avgMileage l = 0) := by
  constructor
  · intro h
    have hl : 0 < totalVehicles l := List.length_pos.mpr h
    have heq : avgMileage l = round (totalMileage l / (totalVehicles l : ℚ)) := by
      simp [avgMileage, hl]
    refine ⟨heq, ?_⟩
    rw [heq, abs_sub_comm]
    exact abs_sub_round (totalMileage l / (totalVehicles l : ℚ))
  · intro h
    simp [avgMileage, h, totalVehicles]

/-- Witness for C7: a one-vehicle fleet averages to its own mileage, and the
empty fleet averages to 0 with no division error. -/
theorem avgMileage_spec_witness :
    avgMileage [vehicleT1] = 45000 ∧ avgMileage [] = 0 := by
  refine ⟨?_, (avgMileage_spec []).2 rfl⟩
  have h := ((avgMileage_spec [vehicleT1]).1 (by simp)).1
  have h2 : totalMileage [vehicleT1] / ((totalVehicles [vehicleT1] : ℕ) : ℚ)
      = ((45000 : ℤ) : ℚ) := by
    norm_num [totalMileage, totalVehicles, vehicleT1]
  rw [h, h2, round_intCast]

/-- The per-row progress computation (src/fleet.jsx lines 245-247):
`Math.min(100, Math.max(0, mileage / nextServiceMileage * 100))` guarded by
`nextServiceMileage > 0`. -/
def serviceProgress (v : Vehicle) : ℚ :=
  if 0 < v.nextServiceMileage then
    min 100 (max 0 (v.mileage / v.nextServiceMileage * 100))
  else 0

/-- C8: the progress percentage is the clamped ratio when the next-service
mileage is positive and 0 otherwise, and it always lies in [0, 100]; the
division is guarded so no division by zero occurs. -/
theorem serviceProgress_spec (v : Vehicle) :
    (0 < v.nextServiceMileage →
      serviceProgress v = min 100 (max 0 (v.mileage / v.nextServiceMileage * 100)))
    ∧ (¬0 < v.nextServiceMileage → serviceProgress v = 0)
    ∧ 0 ≤ serviceProgress v ∧ serviceProgress v ≤ 100 := by
  refine ⟨fun h => by simp [serviceProgress, h], fun h => by simp [serviceProgress, h],
    ?_, ?_⟩
  · unfold serviceProgress
    split
    · exact le_min (by norm_num) (le_max_left 0 _)
    · exact le_refl 0
  · unfold serviceProgress
    split
    · exact min_le_left _ _
    · norm_num

/-- A record with zero next-service mileage. -/
def vehicleZ : Vehicle :=
  { id := "z1", make := "M", model := some "Z", year := none, vin := "VZ",
    mileage := 300, nextServiceMileage := 0, fuelType := "Diesel", status := "Active" }

/-- Witness for C8: with nextServiceMileage = 0 the progress is 0 (and in
range) with no division error. -/
theorem serviceProgress_spec_witness :
    serviceProgress vehicleZ = 0 ∧ serviceProgress vehicleZ ≤ 100 :=
  ⟨(serviceProgress_spec vehicleZ).2.1 (by norm_num [vehicleZ]),
    (serviceProgress_spec vehicleZ).2.2.2⟩

theorem counts_disjoint (v : Vehicle) :
    ¬(isActiveCount v = true ∧ isServiceDueCount v = true) := by
  simp only [isActiveCount, isServiceDueCount, Bool.and_eq_true, Bool.or_eq_true,
    decide_eq_true_eq]
  rintro ⟨⟨hs, hlt⟩, hd | hd⟩
  · exact absurd hd (not_le.mpr hlt)
  · rw [hs] at hd
    exact absurd hd (by decide)

theorem counted_iff (v : Vehicle) :
    (isActiveCount v || isServiceDueCount v) = true ↔
      (v.status = "Active" ∨ v.status = "In Maintenance"
        ∨ v.nextServiceMileage ≤ v.mileage) := by
  simp only [isActiveCount, isServiceDueCount, Bool.or_eq_true, Bool.and_eq_true,
    decide_eq_true_eq]
  constructor
  · rintro (⟨hs, _⟩ | hd | hs)
    · exact Or.inl hs
    · exact Or.inr (Or.inr hd)
    · exact Or.inr (Or.inl hs)
  · rintro (hs | hs | hd)
    · rcases lt_or_le v.mileage v.nextServiceMileage with h | h
      · exact Or.inl ⟨hs, h⟩
      · exact Or.inr (Or.inl h)
    · exact Or.inr (Or.inr hs)
    · exact Or.inr (Or.inl hd)

/-- C9 as amended: the two aggregate filters never both count a record, so
their sum never exceeds the total; the sum equals the total exactly when
every record has status "Active", or status "In Maintenance", or mileage at
least its next-service mileage (an unknown status still counts as service
due once overdue, so equality does not force the status to be one of the two
known values). -/
theorem aggregates_spec (l : List Vehicle) :
    (∀ v ∈ l, ¬(isActiveCount v = true ∧ isServiceDueCount v = true))
    ∧ activeVehicles l + serviceDue l ≤ totalVehicles l
    ∧ (activeVehicles l + serviceDue l = totalVehicles l ↔
        ∀ v ∈ l, v.status = "Active" ∨ v.status = "In Maintenance"
          ∨ v.nextServiceMileage ≤ v.mileage) := by
  refine ⟨fun v _ => counts_disjoint v, ?_⟩
  induction l with
  | nil => simp [activeVehicles, serviceDue, totalVehicles]
  | cons v t ih =>
    have heqA : activeVehicles (v :: t)
        = activeVehicles t + (if isActiveCount v then 1 else 0) := by
      simp only [activeVehicles, List.filter_cons]
      split
      · simp [Nat.add_comm]
      · simp
    have heqD : serviceDue (v :: t)
        = serviceDue t + (if isServiceDueCount v then 1 else 0) := by
      simp only [serviceDue, List.filter_cons]
      split
      · simp [Nat.add_comm]
      · simp
    have heqT : totalVehicles (v :: t) = totalVehicles t + 1 := rfl
    have hone : (if isActiveCount v then 1 else 0) + (if isServiceDueCount v then 1 else 0) ≤ 1
        ∧ ((if isActiveCount v then 1 else 0) + (if isServiceDueCount v then 1 else 0) = 1 ↔
            (v.status = "Active" ∨ v.status = "In Maintenance"
              ∨ v.nextServiceMileage ≤ v.mileage)) := by
      have hnb := counts_disjoint v
      have hci := counted_iff v
      cases hA2 : isActiveCount v <;> cases hD2 : isServiceDueCount v <;>
        simp [hA2, hD2] at hnb hci ⊢ <;> tauto
    constructor
    · rw [heqA, heqD, heqT]
      have h1 := ih.1
      have h2 := hone.1
      omega
    · rw [heqA, heqD, heqT]
      constructor
      · intro he
        have h1 := ih.1
        have h2 := hone.1
        have hsum1 : (if isActiveCount v then 1 else 0)
            + (if isServiceDueCount v then 1 else 0) = 1 := by omega
        have hrest : activeVehicles t + serviceDue t = totalVehicles t := by omega
        intro w hw
        rcases List.mem_cons.mp hw with rfl | hw2
        · exact hone.2.mp hsum1
        · exact (ih.2.mp hrest) w hw2
      · intro hall
        have hPv := hall v (List.mem_cons_self v t)
        have hsum1 := hone.2.mpr hPv
        have hrest := ih.2.mpr (fun w hw => hall w (List.mem_cons_of_mem v hw))
        omega

/-- A record whose status is neither "Active" nor "In Maintenance" but which
is overdue for service. -/
def vehicleRetired : Vehicle :=
  { id := "r1", make := "M", model := some "X", year := none, vin := "V",
    mileage := 10, nextServiceMileage := 5, fuelType := "Diesel", status := "Retired" }

/-- Counterexample for C9 as stated: on this one-record list the aggregate
sum equals the total, yet the record's status is neither "Active" nor
"In Maintenance" — so equality does not hold exactly when every status is one
of the two values. -/
theorem aggregates_equality_counterexample :
    activeVehicles [vehicleRetired] + serviceDue [vehicleRetired]
        = totalVehicles [vehicleRetired]
    ∧ ¬(vehicleRetired.status = "Active" ∨ vehicleRetired.status = "In Maintenance") := by
  constructor
  · norm_num [activeVehicles, serviceDue, totalVehicles, List.filter,
      isActiveCount, isServiceDueCount, vehicleRetired]
  · decide

/-- Witness for C9 as amended: a two-record list (one In Maintenance, one
strictly below its threshold and Active) on which the sum equals the total. -/
theorem aggregates_spec_witness :
    activeVehicles [vehicleB, vehicleT1] + serviceDue [vehicleB, vehicleT1]
      = totalVehicles [vehicleB, vehicleT1] :=
  (aggregates_spec [vehicleB, vehicleT1]).2.2.mpr (by
    intro v hv
    fin_cases hv <;> simp [vehicleB, vehicleT1])

end Fleet
